import Mathlib

/-!
Shallow embedding of the delta-hedging / volatility core of the `ibtrading`
repository (src/components/auto_hedger.py, iv_calculator.py, rv_calculator.py),
together with theorems settling the frozen claims about it.

Broker interactions (ib_insync calls) are modelled by an explicit environment
record: each broker query is a field holding either the value the call returns
or the exception it raises (`Except String`).  Python floats are modelled as
rationals; the transcendental library functions `np.log`, `np.sqrt` and the
Black-Scholes pricer (which uses `norm.cdf`) are taken as parameters of the
definitions that call them, with their relevant algebraic facts (`log 1 = 0`,
`sqrt 0 = 0`, monotonicity of price in sigma) as hypotheses where needed.
-/

/-- Python `abs()` on a float. -/
def pyAbs (q : ℚ) : ℚ := if q < 0 then -q else q

/-- Python `abs()` on an int. -/
def pyAbsInt (n : ℤ) : ℤ := if n < 0 then -n else n

/-- Python `int()` applied to a float: truncation toward zero
(`auto_hedger.py` lines 303 and 308), written on the numerator/denominator
representation so that it evaluates by kernel reduction. -/
def pyInt (q : ℚ) : ℤ :=
  if 0 ≤ q.num then ((q.num.natAbs / q.den : ℕ) : ℤ) else -((q.num.natAbs / q.den : ℕ) : ℤ)

namespace AutoHedger

/-- Broker order statuses counted as in-flight
(`auto_hedger.py` line 81: `order_statuses = ['Submitted', 'PreSubmitted', 'PendingSubmit']`). -/
def pendingStatuses : List String := ["Submitted", "PreSubmitted", "PendingSubmit"]

/-- The dict built by `parse_option_symbol` (`auto_hedger.py` lines 224-232).
The source stores the multiplier as the string `'100'`; `hedge_position` reads it
back through `float(...)`, so it is modelled directly as a rational. -/
structure OptionData where
  symbol : String
  lastTradeDateOrContractMonth : String
  strike : ℚ
  right : Char
  exchange : String
  currency : String
  multiplier : ℚ
deriving DecidableEq

/-- A tradable contract: `ib_insync.Stock` created by `define_stock_contract`,
or `ib_insync.Option` created from parsed option data. -/
inductive Contract where
  | stock (symbol : String)
  | opt (data : OptionData)
deriving DecidableEq

/-- `isinstance(contract, Option)` on the hedging contract. -/
def Contract.isOption : Contract → Bool
  | .stock _ => false
  | .opt _ => true

/-- `contract.symbol`. -/
def Contract.symbol : Contract → String
  | .stock s => s
  | .opt d => d.symbol

/-- `contract.localSymbol` of a contract constructed by this code: ib_insync
initialises `localSymbol` to the empty string and the hedger never qualifies
the contract, so it stays `''`. -/
def Contract.localSymbol : Contract → String
  | _ => ""

/-- One open trade returned by `ib.openTrades()`: its broker order status and
the identifying fields of its contract that `has_pending_orders` reads. -/
structure Trade where
  status : String
  isOption : Bool
  symbol : String
  localSymbol : String
deriving DecidableEq

/-- One entry of `ib.positions()`: the identifying fields read by
`get_current_positions`, plus the value that `get_delta` (ib_connection.py lines
167-225, a broker/cache-dependent estimate) returns for this position in the
current cycle. -/
structure Position where
  isOption : Bool
  symbol : String
  localSymbol : String
  delta : ℚ
deriving DecidableEq

/-- The outcome of `ib.placeOrder` followed by `ib.sleep(1)` in `execute_trade`:
whether a truthy trade object was returned, and the order status then observed. -/
structure PlaceOutcome where
  ok : Bool
  status : String
  avgFillPrice : ℚ
deriving DecidableEq

/-- The broker environment of one hedge evaluation.  An `Except.error` value
models the corresponding ib_insync call raising an exception. -/
structure Env where
  openTrades : Except String (List Trade)
  positions : Except String (List Position)
  place : Except String PlaceOutcome

/-- A call to `ib.placeOrder(contract, MarketOrder(action, abs(order_qty)))`
(`auto_hedger.py` lines 116-136). -/
structure SubmittedOrder where
  contract : Contract
  action : String
  quantity : ℤ
deriving DecidableEq

/-- `has_pending_orders` (`auto_hedger.py` lines 78-104).  A trade is collected
when its status is in-flight and either it is an option whose `localSymbol`
equals the queried symbol, or (the `elif` branch) its `contract.symbol` equals
the queried symbol.  An exception from `ib.openTrades()` is caught and the
function returns `False` (lines 102-104). -/
def has_pending_orders (env : Env) (symbol : String) : Bool :=
  match env.openTrades with
  | .error _ => false
  | .ok trades =>
    let pending := trades.filter fun t =>
      pendingStatuses.contains t.status &&
        ((t.isOption && t.localSymbol == symbol) || t.symbol == symbol)
    !pending.isEmpty

/-- `get_current_positions` (`auto_hedger.py` lines 187-201): filter
`ib.positions()` by `localSymbol` for options and `symbol` for stocks; an
exception yields `[]`. -/
def get_current_positions (env : Env) (key : String) : List Position :=
  match env.positions with
  | .error _ => []
  | .ok ps => ps.filter fun p =>
      (if p.isOption then p.localSymbol else p.symbol) == key

/-- Whitespace tokenisation used by both option-symbol parsers
(`" ".join(symbol.split()).split()`). -/
def tokenize (s : String) : List String :=
  (s.split Char.isWhitespace).filter (· != "")

/-- Python `float()` restricted to the unsigned digit strings that occur in
option keys; on anything containing a non-digit it is modelled as raising
(`none`).  (Python's `float` also accepts signs, decimal points and exponents;
no input used in the theorems below falls in that gap.) -/
def pyFloatDigits (s : String) : Option ℚ :=
  if s.length > 0 && s.toList.all Char.isDigit then
    some (((s.toList.foldl (fun acc c => acc * 10 + (c.toNat - 48)) 0 : ℕ) : ℚ))
  else none

/-- `parse_option_symbol` of `auto_hedger.py` (lines 203-235).  `parts[0]` on an
empty list raises `IndexError`, fewer than 2 parts raises `ValueError`,
`detail[0]` on an empty detail raises `IndexError`, and a non-numeric strike
makes `float` raise; every exception is caught and `None` returned.  Extra
tokens beyond the second are ignored by the source. -/
def parse_option_symbol (symbol : String) : Option OptionData :=
  match tokenize symbol with
  | [] => none
  | [_] => none
  | underlying :: d :: _ =>
    let dateStr := d.take 6
    let year := "20" ++ dateStr.take 2
    let month := (dateStr.drop 2).take 2
    let day := (dateStr.drop 4).take 2
    let detail := d.drop 6
    match detail.toList with
    | [] => none
    | right :: rest =>
      match pyFloatDigits (String.mk rest) with
      | none => none
      | some v =>
        some ⟨underlying, year ++ month ++ day, v / 1000, right, "SMART", "USD", 100⟩

/-- `create_contract_from_key` (`auto_hedger.py` lines 237-257): keys containing
`'C'` or `'P'` go to the option parser (falling off the end, i.e. `None`, when
the parse fails); all other keys become a stock contract. -/
def create_contract_from_key (key : String) : Option Contract :=
  if key.toList.contains 'C' || key.toList.contains 'P' then
    match parse_option_symbol key with
    | some d => some (.opt d)
    | none => none
  else some (.stock key)

/-- Contract resolution at the top of `hedge_position` (lines 265-271): keys
containing `'C'` or `'P'` go through `create_contract_from_key`, others directly
through `define_stock_contract` (which returns a `Stock` for any symbol string). -/
def resolve_contract (key : String) : Option Contract :=
  if key.toList.contains 'C' || key.toList.contains 'P' then
    create_contract_from_key key
  else some (.stock key)

/-- Per-contract delta used for option order sizing
(`auto_hedger.py` line 301: `0.5 if right == 'C' else -0.5`). -/
def contractDelta (right : Char) : ℚ := if right = 'C' then 1/2 else -(1/2)

/-- The max-order-quantity clamp (`auto_hedger.py` lines 313-315). -/
def clampQty (q maxOrderQty : ℤ) : ℤ :=
  if maxOrderQty < pyAbsInt q then (if 0 < q then maxOrderQty else -maxOrderQty) else q

/-- The raw order quantity of `hedge_position` (`auto_hedger.py` lines
297-310): `int(delta_difference / (contract_delta * multiplier))` for an
option contract, `int(delta_difference)` for a stock contract. -/
def raw_order_qty (c : Contract) (diff : ℚ) : ℤ :=
  match c with
  | .opt d => pyInt (diff / (contractDelta d.right * d.multiplier))
  | .stock _ => pyInt diff

/-- `execute_trade` (`auto_hedger.py` lines 106-185), returning the source's
boolean result together with the list of `ib.placeOrder` calls it makes.  The
pending check uses `localSymbol` for options and `symbol` for stocks; an
exception from placing (or from the subsequent `ib.sleep`) is caught and
`False` returned, the order call having already been made. -/
def execute_trade (env : Env) (c : Contract) (orderQty : ℤ) : Bool × List SubmittedOrder :=
  let checkSymbol := if c.isOption then c.localSymbol else c.symbol
  if has_pending_orders env checkSymbol then (false, [])
  else
    let action := if 0 < orderQty then "BUY" else "SELL"
    let order : SubmittedOrder := ⟨c, action, pyAbsInt orderQty⟩
    match env.place with
    | .error _ => (false, [order])
    | .ok out =>
      if !out.ok then (false, [order])
      else if pendingStatuses.contains out.status then (true, [order])
      else if out.status == "Filled" then (true, [order])
      else (false, [order])

/-- One hedge evaluation, `hedge_position` (`auto_hedger.py` lines 259-338),
returning the list of order submissions it performs.  `hedgerOn` is the value
of `hedger_status[position_key]` read at line 262.  The blanket
`except Exception` at lines 336-338 catches anything thrown inside; in the
model every broker call is already handled (each helper catches its own
exceptions), so the function is total and never signals an error to its
caller. -/
def hedge_position (env : Env) (hedgerOn : Bool) (key : String)
    (targetDelta threshold : ℚ) (maxOrderQty : ℤ) : List SubmittedOrder :=
  if !hedgerOn then []
  else
    match resolve_contract key with
    | none => []
    | some c =>
      let positions := get_current_positions env key
      if positions.isEmpty then []
      else if has_pending_orders env key then []
      else
        let currentDelta := (positions.map Position.delta).sum
        let diff := targetDelta - currentDelta
        if threshold < pyAbs diff then
          let rawQty := raw_order_qty c diff
          let qty := clampQty rawQty maxOrderQty
          if qty ≠ 0 then (execute_trade env c qty).2 else []
        else []

/-- One iteration's environment for the `run_auto_hedger` polling loop:
the broker environment seen by `hedge_position`, whether the `ib.sleep(5)`
after the evaluation raises, and whether the `ib.sleep(5)` inside the
exception handler raises. -/
structure CycleEnv where
  env : Env
  sleepFails : Bool
  retrySleepFails : Bool

/-- The `run_auto_hedger` loop (`auto_hedger.py` lines 340-376) run over a
finite schedule of cycle environments, from a given hedger-status flag and
`error_count`.  Returns the status flag after the run (the `finally` block sets
it to `False` whenever the loop exits), the final `error_count`, and all orders
submitted.  `hedge_position` never raises (its own `try/except` swallows every
exception), so `error_count` is reset to 0 (line 358) after every evaluation;
only a failing `ib.sleep(5)` can then raise inside the `try`, incrementing the
just-reset counter to 1; reaching `max_errors = 3` (line 367) breaks the loop,
and an exception from the handler's own sleep propagates to the outer handler —
both paths end in the `finally`. -/
def run_auto_hedger (key : String) (targetDelta threshold : ℚ) (maxOrderQty : ℤ) :
    Bool → ℕ → List CycleEnv → Bool × ℕ × List SubmittedOrder
  | status, errorCount, [] => (status, errorCount, [])
  | status, errorCount, ce :: rest =>
    if !status then (false, errorCount, [])
    else
      let orders := hedge_position ce.env true key targetDelta threshold maxOrderQty
      if !ce.sleepFails then
        let r := run_auto_hedger key targetDelta threshold maxOrderQty status 0 rest
        (r.1, r.2.1, orders ++ r.2.2)
      else
        let ec := 0 + 1
        if 3 ≤ ec then (false, ec, orders)
        else if ce.retrySleepFails then (false, ec, orders)
        else
          let r := run_auto_hedger key targetDelta threshold maxOrderQty status ec rest
          (r.1, r.2.1, orders ++ r.2.2)

/-- `is_hedger_running` for one key (`auto_hedger.py` lines 418-422):
`hedger_status.get(position_key, False)`. -/
def is_hedger_running (status : Bool) : Bool := status

/-- An environment with one Submitted stock order outstanding on IBM and one
IBM stock position of delta 0. -/
def envPending : Env :=
  { openTrades := .ok [⟨"Submitted", false, "IBM", "IBM"⟩],
    positions := .ok [⟨false, "IBM", "IBM", 0⟩],
    place := .ok ⟨true, "Filled", 1⟩ }

/-- An environment holding one IBM stock position with delta 0, no open trades
and a broker that fills orders. -/
def envStockIBM : Env :=
  { openTrades := .ok [],
    positions := .ok [⟨false, "IBM", "IBM", 0⟩],
    place := .ok ⟨true, "Filled", 1⟩ }

/-- An environment holding one MSFT stock position with delta 0, no open
trades and a broker that fills orders. -/
def envStockMSFT : Env :=
  { openTrades := .ok [],
    positions := .ok [⟨false, "MSFT", "MSFT", 0⟩],
    place := .ok ⟨true, "Filled", 1⟩ }

/-- An environment whose open-trades query raises, with one IBM stock
position of delta 0. -/
def envOpenTradesError : Env :=
  { openTrades := .error "connection lost",
    positions := .ok [⟨false, "IBM", "IBM", 0⟩],
    place := .ok ⟨true, "Filled", 1⟩ }

/-- An environment in which every broker call raises. -/
def brokenEnv : Env :=
  { openTrades := .error "broker failure",
    positions := .error "broker failure",
    place := .error "broker failure" }

/-- A polling-loop cycle in which every broker call inside the hedge
evaluation raises but the sleeps succeed. -/
def brokenCycle : CycleEnv :=
  { env := brokenEnv, sleepFails := false, retrySleepFails := false }

end AutoHedger

namespace IVCalculator

/-- The price tolerance of the implied-volatility bisection
(`iv_calculator.py` line 82: `tolerance = 0.00001`). -/
def tolerance : ℚ := 1/100000

/-- Lower bisection bound (`iv_calculator.py` line 80: `sigma_low = 0.0001`). -/
def sigmaLow : ℚ := 1/10000

/-- Upper bisection bound (`iv_calculator.py` line 81: `sigma_high = 5.0`). -/
def sigmaHigh : ℚ := 5

/-- The bisection loop of `calculate_iv` (`iv_calculator.py` lines 97-118),
parametric in the pricing function `bs` (the partial application
`sigma ↦ black_scholes(S, K, T, r, sigma, option_type)`, whose body uses the
floating-point normal CDF and is therefore kept abstract).  The fuel argument
is the remaining iteration budget (`max_iterations = 100`); when it runs out
the source falls through the `for` and returns `(sigma_low + sigma_high) / 2`
(line 118).  Inside an iteration: a pricing failure returns `None`; meeting the
tolerance returns the midpoint (guarded by the always-true range check of line
107); otherwise the bracket is narrowed, and if its width falls below `1e-7`
the loop breaks to the same line-118 midpoint return. -/
def ivLoop (bs : ℚ → Option ℚ) (optionPrice : ℚ) : ℕ → ℚ → ℚ → Option ℚ
  | 0, lo, hi => some ((lo + hi) / 2)
  | n + 1, lo, hi =>
    let sigma := (lo + hi) / 2
    match bs sigma with
    | none => none
    | some price =>
      let diff := price - optionPrice
      if pyAbs diff < tolerance then
        if 0 ≤ sigma ∧ sigma ≤ 5 then some sigma else none
      else
        let lo' := if 0 < diff then lo else sigma
        let hi' := if 0 < diff then sigma else hi
        if pyAbs (hi' - lo') < 1/10000000 then some ((lo' + hi') / 2)
        else ivLoop bs optionPrice n lo' hi'

/-- `calculate_iv` (`iv_calculator.py` lines 72-121): input validation (line 77),
boundary-price computation and clamping (lines 86-95), then the bisection loop.
`bs` abstracts `sigma ↦ black_scholes(S, K, T, r, sigma, option_type)`. -/
def calculate_iv (bs : ℚ → Option ℚ) (optionPrice S K T r : ℚ) : Option ℚ :=
  if optionPrice ≤ 0 ∨ S ≤ 0 ∨ K ≤ 0 ∨ T ≤ 0 ∨ ¬(0 ≤ r ∧ r ≤ 1) then none
  else
    match bs sigmaLow, bs sigmaHigh with
    | some priceLow, some priceHigh =>
      if optionPrice ≤ priceLow then some sigmaLow
      else if priceHigh ≤ optionPrice then some sigmaHigh
      else ivLoop bs optionPrice 100 sigmaLow sigmaHigh
    | _, _ => none

/-- A strictly monotone test pricing function: the price of volatility
`sigma` is `sigma` itself. -/
def bsLinear : ℚ → Option ℚ := fun s => some s

/-- A test pricing function with a jump at `sigma = 1` whose values stay far
from 1 on both sides, so a bisection toward the jump can never meet the price
tolerance. -/
def bsStep : ℚ → Option ℚ := fun s => some (if s < 1 then 2/10000 else 4)

/-- The dict returned by `parse_option_symbol` of `iv_calculator.py`
(lines 150-155). -/
structure ParsedOption where
  underlying : String
  expiry : String
  right : Char
  strike : ℚ
deriving DecidableEq

/-- Python `str.isalpha`: nonempty and all characters alphabetic. -/
def isAlphaStr (s : String) : Bool :=
  s.length > 0 && s.toList.all Char.isAlpha

/-- `parse_option_symbol` of `iv_calculator.py` (lines 123-158): a single
all-alphabetic token is treated as a plain stock symbol (`None`); exactly two
tokens are required; the detail must have at least 15 characters with `'P'` or
`'C'` at index 6; the strike is `float(details[7:]) / 1000`, whose failure is
caught and `None` returned.  The first six detail characters go into the expiry
unvalidated. -/
def parse_option_symbol (symbol : String) : Option ParsedOption :=
  let parts := AutoHedger.tokenize symbol
  if parts.length == 1 && isAlphaStr (parts.headD "") then none
  else
    match parts with
    | [underlying, details] =>
      let dchars := details.toList
      if details.length < 15 || !(dchars.getD 6 ' ' == 'P' || dchars.getD 6 ' ' == 'C') then
        none
      else
        match AutoHedger.pyFloatDigits (details.drop 7) with
        | none => none
        | some v =>
          some ⟨underlying, "20" ++ details.take 6, dchars.getD 6 ' ', v / 1000⟩
    | _ => none

end IVCalculator

namespace RVCalculator

/-- Arithmetic mean, `np.mean` (empty input yields `0/0 = 0` in the rational
model; never reached on the inputs below). -/
def mean (xs : List ℚ) : ℚ := xs.sum / xs.length

/-- `np.std(xs)` (population standard deviation, `ddof = 0`), parametric in the
square-root function. -/
def popStd (sqrtQ : ℚ → ℚ) (xs : List ℚ) : ℚ :=
  sqrtQ (mean (xs.map fun r => (r - mean xs) ^ 2))

/-- `np.std(xs, ddof=1)` (sample standard deviation) as used at
`rv_calculator.py` line 204, parametric in the square-root function.  (On a
single-element list numpy produces `0/0 = NaN`, which the caller's finiteness
check rejects; the model is only applied to lists of length ≥ 2, where the
rational division is exact.) -/
def sampleStd (sqrtQ : ℚ → ℚ) (xs : List ℚ) : ℚ :=
  sqrtQ ((xs.map fun r => (r - mean xs) ^ 2).sum / (xs.length - 1))

/-- `calculate_returns` (`rv_calculator.py` lines 129-159), parametric in
`np.log` and in the `np.sqrt` inside `np.std`.  The `np.isfinite` filter keeps
everything in the rational model (all modelled values are finite; `np.log` of a
positive ratio is finite), so `valid_returns = returns` and the 80%-validity
check compares equal lengths.  The outlier filter keeps returns within
4 standard deviations of the mean and fails if it would drop more than 20%. -/
def calculate_returns (logQ sqrtQ : ℚ → ℚ) (prices : List ℚ) : Option (List ℚ) :=
  if prices.length < 2 then none
  else
    let returns := (prices.zip prices.tail).map fun ab => logQ (ab.2 / ab.1)
    let validReturns := returns
    if (validReturns.length : ℚ) < (returns.length : ℚ) * (8/10) then none
    else
      let m := mean validReturns
      let std := popStd sqrtQ validReturns
      let cleanReturns := validReturns.filter fun r => pyAbs (r - m) ≤ 4 * std
      if (cleanReturns.length : ℚ) < (validReturns.length : ℚ) * (8/10) then none
      else some cleanReturns

/-- `annualize_volatility` (`rv_calculator.py` lines 161-186): reject negative
volatility, scale by `sqrt(252 * 6.5 * 60 / time_period_minutes)`, reject a
negative result and cap at `5.0`. -/
def annualize_volatility (sqrtQ : ℚ → ℚ) (vol timePeriodMinutes : ℚ) : Option ℚ :=
  if vol < 0 then none
  else
    let factor := sqrtQ (252 * (13/2) * 60 / timePeriodMinutes)
    let annualVol := vol * factor
    if annualVol < 0 then none
    else if 5 < annualVol then some 5
    else some annualVol

/-- The pure core of `calculate_realized_volatility` (`rv_calculator.py` lines
188-218) from the price series onward: compute cleaned log returns, take their
sample standard deviation, reject it when it is not strictly positive (line
205: `if not np.isfinite(period_vol) or period_vol <= 0: return None`), then
annualize. -/
def calculate_realized_volatility (logQ sqrtQ : ℚ → ℚ)
    (prices : List ℚ) (timePeriodMinutes : ℚ) : Option ℚ :=
  match calculate_returns logQ sqrtQ prices with
  | none => none
  | some returns =>
    let periodVol := sampleStd sqrtQ returns
    if periodVol ≤ 0 then none
    else annualize_volatility sqrtQ periodVol timePeriodMinutes

end RVCalculator

namespace AutoHedger

/-- `pyAbs` is the absolute value on ℚ. -/
lemma pyAbs_eq (q : ℚ) : pyAbs q = |q| := by
  unfold pyAbs
  rcases abs_cases q with ⟨h1, h2⟩ | ⟨h1, h2⟩
  · rw [h1, if_neg (not_lt.mpr h2)]
  · rw [h1, if_pos h2]

/-- `pyAbsInt` is the absolute value on ℤ. -/
lemma pyAbsInt_eq (n : ℤ) : pyAbsInt n = |n| := by
  unfold pyAbsInt
  rcases abs_cases n with ⟨h1, h2⟩ | ⟨h1, h2⟩
  · rw [h1, if_neg (not_lt.mpr h2)]
  · rw [h1, if_pos h2]

/-- `pyInt` is truncation toward zero: the floor of a nonnegative rational and
the ceiling of a negative one, as Python `int()` on a float. -/
lemma pyInt_trunc (q : ℚ) : pyInt q = if 0 ≤ q then ⌊q⌋ else ⌈q⌉ := by
  unfold pyInt
  have hnum : 0 ≤ q.num ↔ 0 ≤ q := Rat.num_nonneg
  by_cases h : 0 ≤ q
  · rw [if_pos (hnum.mpr h), if_pos h, Rat.floor_def, Int.ofNat_tdiv,
      Int.natAbs_of_nonneg (hnum.mpr h)]
    exact Int.tdiv_eq_ediv (hnum.mpr h) (Int.natCast_nonneg q.den)
  · have hq : ¬0 ≤ q.num := fun hc => h (hnum.mp hc)
    rw [if_neg hq, if_neg h]
    have hceil : ⌈q⌉ = -⌊-q⌋ := by rw [Int.floor_neg, neg_neg]
    rw [hceil, Rat.floor_def, neg_inj, Rat.neg_num, Rat.neg_den, Int.ofNat_tdiv]
    have hnn : (-q.num).natAbs = q.num.natAbs := Int.natAbs_neg q.num
    rw [← hnn, Int.natAbs_of_nonneg (by omega : 0 ≤ -q.num)]
    exact Int.tdiv_eq_ediv (by omega) (Int.natCast_nonneg q.den)

/-- If the pending-order check of `execute_trade` passes, the function places
exactly the one market order built from the contract and signed quantity,
whatever the broker's response to the placement is. -/
lemma execute_trade_orders (env : Env) (c : Contract) (q : ℤ)
    (h : has_pending_orders env (if c.isOption then c.localSymbol else c.symbol) = false) :
    (execute_trade env c q).2 = [⟨c, if 0 < q then "BUY" else "SELL", |q|⟩] := by
  obtain ⟨ot, ps, pl⟩ := env
  unfold execute_trade
  simp only [h, Bool.false_eq_true, if_false, pyAbsInt_eq]
  rcases pl with e | out
  · rfl
  · simp only
    split
    · rfl
    · split
      · rfl
      · split <;> rfl

/-- Any order in the output of `execute_trade` carries the absolute value of
the requested signed quantity. -/
lemma execute_trade_mem_quantity (env : Env) (c : Contract) (q : ℤ)
    (o : SubmittedOrder) (h : o ∈ (execute_trade env c q).2) : o.quantity = |q| := by
  by_cases hp : has_pending_orders env (if c.isOption then c.localSymbol else c.symbol) = true
  · exfalso
    obtain ⟨ot, ps, pl⟩ := env
    unfold execute_trade at h
    simp only [hp, if_true] at h
    simp at h
  · rw [execute_trade_orders env c q (by simpa using hp)] at h
    simp only [List.mem_singleton] at h
    rw [h]

/-- End-to-end characterisation of an order-submitting hedge evaluation:
when the hedger is on, the contract resolves, positions exist, no pending
order blocks either check, the delta difference exceeds the threshold and the
clamped truncated quantity is nonzero, `hedge_position` submits exactly one
market order of that quantity. -/
lemma hedge_position_submits (env : Env) (key : String)
    (targetDelta threshold : ℚ) (maxOrderQty : ℤ) (c : Contract) (qty : ℤ)
    (hc : resolve_contract key = some c)
    (hpos : get_current_positions env key ≠ [])
    (hpend : has_pending_orders env key = false)
    (hpend2 : has_pending_orders env (if c.isOption then c.localSymbol else c.symbol) = false)
    (hth : threshold < |targetDelta - ((get_current_positions env key).map Position.delta).sum|)
    (hqty : qty = clampQty
      (raw_order_qty c (targetDelta - ((get_current_positions env key).map Position.delta).sum))
      maxOrderQty)
    (hq0 : qty ≠ 0) :
    hedge_position env true key targetDelta threshold maxOrderQty
      = [⟨c, if 0 < qty then "BUY" else "SELL", |qty|⟩] := by
  subst hqty
  unfold hedge_position
  rw [hc]
  simp only [Bool.not_true, Bool.false_eq_true, if_false]
  rw [if_neg (by simp [List.isEmpty_iff, hpos]), hpend]
  simp only [Bool.false_eq_true, if_false]
  rw [if_pos (show _ < pyAbs _ by rw [pyAbs_eq]; exact hth), if_pos hq0]
  exact execute_trade_orders env c _ hpend2

/-- C1: for every hedge evaluation of a position key on which the broker
reports at least one in-flight order (status `Submitted`, `PreSubmitted` or
`PendingSubmit`) on that exact instrument, the evaluation submits no order,
regardless of the delta difference. -/
theorem C1_pending_order_suppression (env : Env) (hedgerOn : Bool) (key : String)
    (targetDelta threshold : ℚ) (maxOrderQty : ℤ)
    (trades : List Trade) (t : Trade)
    (hot : env.openTrades = .ok trades) (hmem : t ∈ trades)
    (hst : t.status ∈ pendingStatuses)
    (hmatch : (t.isOption = true ∧ t.localSymbol = key)
      ∨ (t.isOption = false ∧ t.symbol = key)) :
    hedge_position env hedgerOn key targetDelta threshold maxOrderQty = [] := by
  have ht : t ∈ trades.filter fun t =>
      pendingStatuses.contains t.status &&
        ((t.isOption && t.localSymbol == key) || t.symbol == key) := by
    refine List.mem_filter.mpr ⟨hmem, ?_⟩
    rcases hmatch with ⟨h1, h2⟩ | ⟨h1, h2⟩ <;> simp [hst, h1, h2]
  have hp : has_pending_orders env key = true := by
    unfold has_pending_orders
    rw [hot]
    simp only [Bool.not_eq_true']
    rw [List.isEmpty_eq_false]
    exact List.ne_nil_of_mem ht
  unfold hedge_position
  rcases hedgerOn with _ | _
  · rfl
  · simp only [Bool.not_true, Bool.false_eq_true, if_false]
    rcases hr : resolve_contract key with _ | c
    · rfl
    · simp only [hp]
      simp

/-- Witness for C1: with one Submitted stock order outstanding on IBM, a hedge
evaluation with a huge delta difference submits nothing. -/
theorem C1_pending_order_suppression_witness :
    hedge_position envPending true "IBM" 1000000 0 100 = [] :=
  C1_pending_order_suppression envPending true "IBM" 1000000 0 100
    [⟨"Submitted", false, "IBM", "IBM"⟩] ⟨"Submitted", false, "IBM", "IBM"⟩
    rfl (by with_unfolding_all decide) (by with_unfolding_all decide) (Or.inr ⟨rfl, rfl⟩)

/-- C4 counterexample: with aggregate delta 0, target 3.7 and threshold 1 on
the stock key IBM, the evaluation submits quantity `int(3.7) = 3`, whereas the
claimed `round(3.7)` is 4. -/
theorem C4_counterexample :
    hedge_position envStockIBM true "IBM" (37/10) 1 100 = [⟨.stock "IBM", "BUY", 3⟩]
    ∧ round ((37 : ℚ)/10 - 0) = 4 ∧ (3 : ℤ) ≠ 4 := by
  refine ⟨by with_unfolding_all decide, ?_, by with_unfolding_all decide⟩
  norm_num [round_eq]

/-- C4 (amended): in every hedge evaluation whose delta difference exceeds the
threshold, the raw order quantity is the Python `int()` truncation toward zero
of `diff` for a stock key and of `diff / (perContractDelta * multiplier)` for
an option key (not `round`), with `perContractDelta = +0.5` for calls and
`-0.5` otherwise; the submitted order carries the clamp of that truncation. -/
theorem C4_truncated_order_quantity (env : Env) (key : String)
    (targetDelta threshold : ℚ) (maxOrderQty : ℤ) (c : Contract) (qty : ℤ)
    (hc : resolve_contract key = some c)
    (hpos : get_current_positions env key ≠ [])
    (hpend : has_pending_orders env key = false)
    (hpend2 : has_pending_orders env (if c.isOption then c.localSymbol else c.symbol) = false)
    (hth : threshold < |targetDelta - ((get_current_positions env key).map Position.delta).sum|)
    (hqty : qty = clampQty
      (raw_order_qty c (targetDelta - ((get_current_positions env key).map Position.delta).sum))
      maxOrderQty)
    (hq0 : qty ≠ 0) :
    hedge_position env true key targetDelta threshold maxOrderQty
      = [⟨c, if 0 < qty then "BUY" else "SELL", |qty|⟩]
    ∧ (∀ s diff, raw_order_qty (.stock s) diff = pyInt diff)
    ∧ (∀ d diff, raw_order_qty (.opt d) diff
        = pyInt (diff / (contractDelta d.right * d.multiplier)))
    ∧ (∀ q : ℚ, 0 ≤ q → (pyInt q : ℤ) = ⌊q⌋) ∧ (∀ q : ℚ, q < 0 → (pyInt q : ℤ) = ⌈q⌉)
    ∧ contractDelta 'C' = 1/2 ∧ (∀ ch, ch ≠ 'C' → contractDelta ch = -(1/2)) := by
  refine ⟨hedge_position_submits env key targetDelta threshold maxOrderQty c qty
      hc hpos hpend hpend2 hth hqty hq0,
    fun _ _ => rfl, fun _ _ => rfl,
    fun q hq => by rw [pyInt_trunc, if_pos hq],
    fun q hq => by rw [pyInt_trunc, if_neg (not_le.mpr hq)],
    rfl, fun ch hch => by rw [contractDelta, if_neg hch]⟩

/-- Witness for C4: target 5, aggregate 0, threshold 1 on MSFT submits BUY 5. -/
theorem C4_truncated_order_quantity_witness :
    hedge_position envStockMSFT true "MSFT" 5 1 100 = [⟨.stock "MSFT", "BUY", 5⟩]
    ∧ contractDelta 'C' = 1/2 ∧ contractDelta 'P' = -(1/2) := by
  have h := C4_truncated_order_quantity envStockMSFT "MSFT" 5 1 100 (.stock "MSFT") 5
    (by with_unfolding_all decide) (by with_unfolding_all decide) (by with_unfolding_all decide) (by with_unfolding_all decide) (by with_unfolding_all decide) (by with_unfolding_all decide) (by with_unfolding_all decide)
  exact ⟨h.1, h.2.2.2.2.2.1, h.2.2.2.2.2.2 'P' (by with_unfolding_all decide)⟩

/-- Rewrites `|x|` on integers into an `if`, making goals omega-friendly. -/
lemma int_abs_ite (x : ℤ) : |x| = if 0 ≤ x then x else -x := by
  rcases abs_cases x with ⟨h1, h2⟩ | ⟨h1, h2⟩
  · rw [h1, if_pos h2]
  · rw [h1, if_neg (by omega)]

/-- The clamp keeps the magnitude within the cap and preserves the sign of a
nonzero result. -/
lemma clampQty_spec (q m : ℤ) (hm : 0 ≤ m) :
    |clampQty q m| ≤ m
    ∧ (clampQty q m ≠ 0 → ((0 < q ↔ 0 < clampQty q m) ∧ (q < 0 ↔ clampQty q m < 0))) := by
  unfold clampQty pyAbsInt
  simp only [int_abs_ite]
  split_ifs <;> omega

/-- C6: with a nonnegative cap, the clamped quantity has absolute value at
most `maxOrderQty` and the sign of the raw quantity, and any order actually
submitted by a hedge evaluation has a strictly positive quantity (a clamped
quantity of 0 submits nothing) bounded by the cap. -/
theorem C6_clamp_and_zero_skip (env : Env) (hedgerOn : Bool) (key : String)
    (targetDelta threshold : ℚ) (maxOrderQty : ℤ) (hm : 0 ≤ maxOrderQty) :
    (∀ q : ℤ, |clampQty q maxOrderQty| ≤ maxOrderQty
      ∧ (clampQty q maxOrderQty ≠ 0 →
          ((0 < q ↔ 0 < clampQty q maxOrderQty) ∧ (q < 0 ↔ clampQty q maxOrderQty < 0))))
    ∧ ∀ o ∈ hedge_position env hedgerOn key targetDelta threshold maxOrderQty,
        0 < o.quantity ∧ o.quantity ≤ maxOrderQty := by
  refine ⟨fun q => clampQty_spec q maxOrderQty hm, fun o hmem => ?_⟩
  simp only [hedge_position] at hmem
  split at hmem
  · simp at hmem
  · split at hmem
    · simp at hmem
    · split at hmem
      · simp at hmem
      · split at hmem
        · simp at hmem
        · split at hmem
          · split at hmem
            · have hq := execute_trade_mem_quantity _ _ _ _ hmem
              rw [hq]
              rename_i hq0
              exact ⟨abs_pos.mpr hq0, (clampQty_spec _ maxOrderQty hm).1⟩
            · simp at hmem
          · simp at hmem

/-- Witness for C6: the clamp bound and sign-preservation at cap 100 and raw
quantity 250. -/
theorem C6_clamp_and_zero_skip_witness :
    |clampQty 250 100| ≤ 100
    ∧ (clampQty 250 100 ≠ 0 →
        ((0 < (250 : ℤ) ↔ 0 < clampQty 250 100) ∧ ((250 : ℤ) < 0 ↔ clampQty 250 100 < 0))) :=
  (C6_clamp_and_zero_skip envStockIBM true "IBM" 0 0 100 (by with_unfolding_all decide)).1 250

/-- C9: every position key containing the character `C` or `P` is routed to
the option parser — a resolved contract is necessarily an option contract —
and when the option parse fails (as it does for plain stock symbols such as
AAPL or CSCO), contract creation yields nothing and the evaluation places no
order. -/
theorem C9_cp_keys_parsed_as_options (env : Env) (hedgerOn : Bool) (key : String)
    (targetDelta threshold : ℚ) (maxOrderQty : ℤ)
    (hcp : (key.toList.contains 'C' || key.toList.contains 'P') = true) :
    (∀ c, resolve_contract key = some c → c.isOption = true)
    ∧ (parse_option_symbol key = none →
        resolve_contract key = none
        ∧ hedge_position env hedgerOn key targetDelta threshold maxOrderQty = []) := by
  have hres : resolve_contract key = create_contract_from_key key := by
    unfold resolve_contract
    rw [if_pos hcp]
  constructor
  · intro c hc
    rw [hres] at hc
    unfold create_contract_from_key at hc
    rw [if_pos hcp] at hc
    rcases hparse : parse_option_symbol key with _ | d <;> rw [hparse] at hc
    · exact absurd hc (by simp)
    · simp only [Option.some.injEq] at hc
      rw [← hc]
      rfl
  · intro hparse
    have h1 : resolve_contract key = none := by
      rw [hres]
      unfold create_contract_from_key
      rw [if_pos hcp, hparse]
    refine ⟨h1, ?_⟩
    unfold hedge_position
    rcases hedgerOn with _ | _
    · rfl
    · simp [h1]

/-- Witness for C9: the stock symbols AAPL and CSCO (which contain `P` resp.
`C`) produce no order in any evaluation against `envStockIBM`. -/
theorem C9_cp_keys_parsed_as_options_witness :
    hedge_position envStockIBM true "AAPL" 1000 0 100 = []
    ∧ hedge_position envStockIBM true "CSCO" 1000 0 100 = [] :=
  ⟨((C9_cp_keys_parsed_as_options envStockIBM true "AAPL" 1000 0 100 (by with_unfolding_all decide)).2
      (by with_unfolding_all decide)).2,
   ((C9_cp_keys_parsed_as_options envStockIBM true "CSCO" 1000 0 100 (by with_unfolding_all decide)).2
      (by with_unfolding_all decide)).2⟩

/-- C10: when the broker's open-trades query raises, `has_pending_orders`
reports `False` for every symbol, and a hedge evaluation whose other
conditions hold proceeds to compute and submit an order instead of skipping
the cycle. -/
theorem C10_pending_check_error_proceeds (env : Env) (msg : String) (key : String)
    (targetDelta threshold : ℚ) (maxOrderQty : ℤ) (qty : ℤ)
    (hot : env.openTrades = .error msg)
    (hkey : (key.toList.contains 'C' || key.toList.contains 'P') = false)
    (hpos : get_current_positions env key ≠ [])
    (hth : threshold < |targetDelta - ((get_current_positions env key).map Position.delta).sum|)
    (hqty : qty = clampQty
      (pyInt (targetDelta - ((get_current_positions env key).map Position.delta).sum))
      maxOrderQty)
    (hq0 : qty ≠ 0) :
    (∀ sym, has_pending_orders env sym = false)
    ∧ hedge_position env true key targetDelta threshold maxOrderQty
        = [⟨.stock key, if 0 < qty then "BUY" else "SELL", |qty|⟩] := by
  have hpendall : ∀ sym, has_pending_orders env sym = false := by
    intro sym
    unfold has_pending_orders
    rw [hot]
  refine ⟨hpendall, ?_⟩
  have hc : resolve_contract key = some (.stock key) := by
    unfold resolve_contract
    rw [hkey]
    simp
  exact hedge_position_submits env key targetDelta threshold maxOrderQty (.stock key) qty
    hc hpos (hpendall key) (hpendall _) hth hqty hq0

/-- Witness for C10: with the open-trades query raising, the IBM evaluation
with target 5 still submits BUY 5. -/
theorem C10_pending_check_error_proceeds_witness :
    has_pending_orders envOpenTradesError "IBM" = false
    ∧ hedge_position envOpenTradesError true "IBM" 5 1 100 = [⟨.stock "IBM", "BUY", 5⟩] := by
  have h := C10_pending_check_error_proceeds envOpenTradesError "connection lost" "IBM"
    5 1 100 5 rfl (by with_unfolding_all decide) (by with_unfolding_all decide) (by with_unfolding_all decide) (by with_unfolding_all decide) (by with_unfolding_all decide)
  exact ⟨h.1 "IBM", h.2⟩

/-- C3 (code-bug evidence): after three consecutive polling cycles in which
every broker call raises, the hedger is still reported running and the
consecutive-error counter is 0.  `hedge_position` (lines 336-338) and its
helpers catch every broker exception internally and return normally, and
`run_auto_hedger` resets `error_count` to 0 right after each evaluation, so
the documented `max_errors = 3` auto-stop cannot be reached by broker errors
during the evaluation steps. -/
theorem C3_broker_errors_do_not_stop_hedger :
    (run_auto_hedger "IBM" 100 1 50 true 0 [brokenCycle, brokenCycle, brokenCycle]).1 = true
    ∧ (run_auto_hedger "IBM" 100 1 50 true 0 [brokenCycle, brokenCycle, brokenCycle]).2.1 = 0
    ∧ is_hedger_running
        (run_auto_hedger "IBM" 100 1 50 true 0 [brokenCycle, brokenCycle, brokenCycle]).1 = true
    ∧ hedge_position brokenEnv true "IBM" 100 1 50 = [] := by
  refine ⟨by with_unfolding_all decide, by with_unfolding_all decide,
    by with_unfolding_all decide, by with_unfolding_all decide⟩

end AutoHedger

namespace IVCalculator

/-- C7: for valid inputs and a proper bracket (the price at the lower bound
below the price at the upper bound, as Black-Scholes monotonicity in sigma
gives), a market price at or below the price at `sigma_low = 0.0001` makes
`calculate_iv` return `0.0001`, and one at or above the price at
`sigma_high = 5.0` makes it return `5.0`, instead of failing. -/
theorem C7_boundary_clamp (bs : ℚ → Option ℚ) (optionPrice S K T r pl ph : ℚ)
    (hp : 0 < optionPrice) (hS : 0 < S) (hK : 0 < K) (hT : 0 < T)
    (hr0 : 0 ≤ r) (hr1 : r ≤ 1)
    (hlo : bs sigmaLow = some pl) (hhi : bs sigmaHigh = some ph) (hbr : pl < ph) :
    (optionPrice ≤ pl → calculate_iv bs optionPrice S K T r = some sigmaLow)
    ∧ (ph ≤ optionPrice → calculate_iv bs optionPrice S K T r = some sigmaHigh) := by
  have hval : ¬(optionPrice ≤ 0 ∨ S ≤ 0 ∨ K ≤ 0 ∨ T ≤ 0 ∨ ¬(0 ≤ r ∧ r ≤ 1)) := by
    push_neg
    exact ⟨hp, hS, hK, hT, hr0, hr1⟩
  unfold calculate_iv
  rw [if_neg hval]
  simp only [hlo, hhi]
  constructor
  · intro hple
    rw [if_pos hple]
  · intro hphle
    rw [if_neg (by linarith), if_pos hphle]

/-- Witness for C7: with the identity pricing function, a market price equal
to the lower-bound price returns `sigmaLow` and one equal to the upper-bound
price returns `sigmaHigh`. -/
theorem C7_boundary_clamp_witness :
    calculate_iv bsLinear (1/10000) 1 1 1 0 = some sigmaLow
    ∧ calculate_iv bsLinear 5 1 1 1 0 = some sigmaHigh := by
  constructor
  · exact (C7_boundary_clamp bsLinear (1/10000) 1 1 1 0 (1/10000) 5 (by norm_num)
      one_pos one_pos one_pos le_rfl zero_le_one rfl rfl (by norm_num)).1 le_rfl
  · exact (C7_boundary_clamp bsLinear 5 1 1 1 0 (1/10000) 5 (by norm_num)
      one_pos one_pos one_pos le_rfl zero_le_one rfl rfl (by norm_num)).2 le_rfl

/-- As long as the pricing function keeps succeeding, the bisection loop
always produces a value: meeting the tolerance returns the midpoint (the
always-true range check cannot fire `None` for a bracket inside `[0, 5]`),
a collapsed bracket returns the midpoint, and an exhausted budget returns the
midpoint. -/
lemma ivLoop_isSome (bs : ℚ → Option ℚ) (p : ℚ)
    (htotal : ∀ σ, (bs σ).isSome = true) :
    ∀ (n : ℕ) (lo hi : ℚ), 0 ≤ lo → lo ≤ hi → hi ≤ 5 →
      (ivLoop bs p n lo hi).isSome = true := by
  intro n
  induction n with
  | zero => intro lo hi _ _ _; rfl
  | succ n ih =>
    intro lo hi h0 hle h5
    unfold ivLoop
    rcases hbs : bs ((lo + hi) / 2) with _ | price
    · have hs := htotal ((lo + hi) / 2)
      rw [hbs] at hs
      exact absurd hs (by simp)
    · simp only [hbs]
      split
      · rw [if_pos ⟨by linarith, by linarith⟩]
        rfl
      · by_cases hd : 0 < price - p
        · simp only [if_pos hd]
          split
          · rfl
          · exact ih _ _ h0 (by linarith) (by linarith)
        · simp only [if_neg hd]
          split
          · rfl
          · exact ih _ _ (by linarith) (by linarith) h5

/-- C2 (amended): the implied-volatility solver does not fail on
non-convergence — a zero iteration budget returns the bracket midpoint, and
for valid inputs with a total pricing function `calculate_iv` always returns
some sigma; `None` arises only from invalid inputs or pricing failures. -/
theorem C2_unconverged_returns_midpoint (bs : ℚ → Option ℚ) (p S K T r : ℚ)
    (hp : 0 < p) (hS : 0 < S) (hK : 0 < K) (hT : 0 < T) (hr0 : 0 ≤ r) (hr1 : r ≤ 1)
    (htotal : ∀ σ, (bs σ).isSome = true) :
    (∀ lo hi, ivLoop bs p 0 lo hi = some ((lo + hi) / 2))
    ∧ (calculate_iv bs p S K T r).isSome = true := by
  refine ⟨fun lo hi => rfl, ?_⟩
  have hval : ¬(p ≤ 0 ∨ S ≤ 0 ∨ K ≤ 0 ∨ T ≤ 0 ∨ ¬(0 ≤ r ∧ r ≤ 1)) := by
    push_neg
    exact ⟨hp, hS, hK, hT, hr0, hr1⟩
  unfold calculate_iv
  rw [if_neg hval]
  rcases hlo : bs sigmaLow with _ | pl
  · have hs := htotal sigmaLow
    rw [hlo] at hs
    exact absurd hs (by simp)
  rcases hhi : bs sigmaHigh with _ | ph
  · have hs := htotal sigmaHigh
    rw [hhi] at hs
    exact absurd hs (by simp)
  simp only [hlo, hhi]
  split
  · rfl
  · split
    · rfl
    · exact ivLoop_isSome bs p htotal 100 sigmaLow sigmaHigh
        (by norm_num [sigmaLow]) (by norm_num [sigmaLow, sigmaHigh]) (by norm_num [sigmaHigh])

/-- Witness for C2: with the identity pricing function and market price 1,
the solver returns a value. -/
theorem C2_unconverged_returns_midpoint_witness :
    (calculate_iv bsLinear 1 1 1 1 0).isSome = true :=
  (C2_unconverged_returns_midpoint bsLinear 1 1 1 1 0 one_pos one_pos one_pos one_pos
    le_rfl zero_le_one (fun _ => rfl)).2

/-- Iteration 1 of the bisection of `C2_counterexample`. -/
lemma c2_step_0 :
    ivLoop bsStep 1 100 ((1 : ℚ)/10000) (5 : ℚ) = ivLoop bsStep 1 99 ((1 : ℚ)/10000) ((50001 : ℚ)/20000) := by
  rw [show (100 : ℕ) = 99 + 1 from rfl]
  rw [ivLoop]
  norm_num [bsStep, pyAbs, tolerance]

/-- Iteration 2 of the bisection of `C2_counterexample`. -/
lemma c2_step_1 :
    ivLoop bsStep 1 99 ((1 : ℚ)/10000) ((50001 : ℚ)/20000) = ivLoop bsStep 1 98 ((1 : ℚ)/10000) ((50003 : ℚ)/40000) := by
  rw [show (99 : ℕ) = 98 + 1 from rfl]
  rw [ivLoop]
  norm_num [bsStep, pyAbs, tolerance]

/-- Iteration 3 of the bisection of `C2_counterexample`. -/
lemma c2_step_2 :
    ivLoop bsStep 1 98 ((1 : ℚ)/10000) ((50003 : ℚ)/40000) = ivLoop bsStep 1 97 ((50007 : ℚ)/80000) ((50003 : ℚ)/40000) := by
  rw [show (98 : ℕ) = 97 + 1 from rfl]
  rw [ivLoop]
  norm_num [bsStep, pyAbs, tolerance]

/-- Iteration 4 of the bisection of `C2_counterexample`. -/
lemma c2_step_3 :
    ivLoop bsStep 1 97 ((50007 : ℚ)/80000) ((50003 : ℚ)/40000) = ivLoop bsStep 1 96 ((150013 : ℚ)/160000) ((50003 : ℚ)/40000) := by
  rw [show (97 : ℕ) = 96 + 1 from rfl]
  rw [ivLoop]
  norm_num [bsStep, pyAbs, tolerance]

/-- Iteration 5 of the bisection of `C2_counterexample`. -/
lemma c2_step_4 :
    ivLoop bsStep 1 96 ((150013 : ℚ)/160000) ((50003 : ℚ)/40000) = ivLoop bsStep 1 95 ((150013 : ℚ)/160000) ((14001 : ℚ)/12800) := by
  rw [show (96 : ℕ) = 95 + 1 from rfl]
  rw [ivLoop]
  norm_num [bsStep, pyAbs, tolerance]

/-- Iteration 6 of the bisection of `C2_counterexample`. -/
lemma c2_step_5 :
    ivLoop bsStep 1 95 ((150013 : ℚ)/160000) ((14001 : ℚ)/12800) = ivLoop bsStep 1 94 ((150013 : ℚ)/160000) ((650051 : ℚ)/640000) := by
  rw [show (95 : ℕ) = 94 + 1 from rfl]
  rw [ivLoop]
  norm_num [bsStep, pyAbs, tolerance]

/-- Iteration 7 of the bisection of `C2_counterexample`. -/
lemma c2_step_6 :
    ivLoop bsStep 1 94 ((150013 : ℚ)/160000) ((650051 : ℚ)/640000) = ivLoop bsStep 1 93 ((1250103 : ℚ)/1280000) ((650051 : ℚ)/640000) := by
  rw [show (94 : ℕ) = 93 + 1 from rfl]
  rw [ivLoop]
  norm_num [bsStep, pyAbs, tolerance]

/-- Iteration 8 of the bisection of `C2_counterexample`. -/
lemma c2_step_7 :
    ivLoop bsStep 1 93 ((1250103 : ℚ)/1280000) ((650051 : ℚ)/640000) = ivLoop bsStep 1 92 ((510041 : ℚ)/512000) ((650051 : ℚ)/640000) := by
  rw [show (93 : ℕ) = 92 + 1 from rfl]
  rw [ivLoop]
  norm_num [bsStep, pyAbs, tolerance]

/-- Iteration 9 of the bisection of `C2_counterexample`. -/
lemma c2_step_8 :
    ivLoop bsStep 1 92 ((510041 : ℚ)/512000) ((650051 : ℚ)/640000) = ivLoop bsStep 1 91 ((510041 : ℚ)/512000) ((5150409 : ℚ)/5120000) := by
  rw [show (92 : ℕ) = 91 + 1 from rfl]
  rw [ivLoop]
  norm_num [bsStep, pyAbs, tolerance]

/-- Iteration 10 of the bisection of `C2_counterexample`. -/
lemma c2_step_9 :
    ivLoop bsStep 1 91 ((510041 : ℚ)/512000) ((5150409 : ℚ)/5120000) = ivLoop bsStep 1 90 ((510041 : ℚ)/512000) ((10250819 : ℚ)/10240000) := by
  rw [show (91 : ℕ) = 90 + 1 from rfl]
  rw [ivLoop]
  norm_num [bsStep, pyAbs, tolerance]

/-- Iteration 11 of the bisection of `C2_counterexample`. -/
lemma c2_step_10 :
    ivLoop bsStep 1 90 ((510041 : ℚ)/512000) ((10250819 : ℚ)/10240000) = ivLoop bsStep 1 89 ((20451639 : ℚ)/20480000) ((10250819 : ℚ)/10240000) := by
  rw [show (90 : ℕ) = 89 + 1 from rfl]
  rw [ivLoop]
  norm_num [bsStep, pyAbs, tolerance]

/-- Iteration 12 of the bisection of `C2_counterexample`. -/
lemma c2_step_11 :
    ivLoop bsStep 1 89 ((20451639 : ℚ)/20480000) ((10250819 : ℚ)/10240000) = ivLoop bsStep 1 88 ((40953277 : ℚ)/40960000) ((10250819 : ℚ)/10240000) := by
  rw [show (89 : ℕ) = 88 + 1 from rfl]
  rw [ivLoop]
  norm_num [bsStep, pyAbs, tolerance]

/-- Iteration 13 of the bisection of `C2_counterexample`. -/
lemma c2_step_12 :
    ivLoop bsStep 1 88 ((40953277 : ℚ)/40960000) ((10250819 : ℚ)/10240000) = ivLoop bsStep 1 87 ((40953277 : ℚ)/40960000) ((81956553 : ℚ)/81920000) := by
  rw [show (88 : ℕ) = 87 + 1 from rfl]
  rw [ivLoop]
  norm_num [bsStep, pyAbs, tolerance]

/-- Iteration 14 of the bisection of `C2_counterexample`. -/
lemma c2_step_13 :
    ivLoop bsStep 1 87 ((40953277 : ℚ)/40960000) ((81956553 : ℚ)/81920000) = ivLoop bsStep 1 86 ((40953277 : ℚ)/40960000) ((163863107 : ℚ)/163840000) := by
  rw [show (87 : ℕ) = 86 + 1 from rfl]
  rw [ivLoop]
  norm_num [bsStep, pyAbs, tolerance]

/-- Iteration 15 of the bisection of `C2_counterexample`. -/
lemma c2_step_14 :
    ivLoop bsStep 1 86 ((40953277 : ℚ)/40960000) ((163863107 : ℚ)/163840000) = ivLoop bsStep 1 85 ((65535243 : ℚ)/65536000) ((163863107 : ℚ)/163840000) := by
  rw [show (86 : ℕ) = 85 + 1 from rfl]
  rw [ivLoop]
  norm_num [bsStep, pyAbs, tolerance]

/-- Iteration 16 of the bisection of `C2_counterexample`. -/
lemma c2_step_15 :
    ivLoop bsStep 1 85 ((65535243 : ℚ)/65536000) ((163863107 : ℚ)/163840000) = ivLoop bsStep 1 84 ((65535243 : ℚ)/65536000) ((655402429 : ℚ)/655360000) := by
  rw [show (85 : ℕ) = 84 + 1 from rfl]
  rw [ivLoop]
  norm_num [bsStep, pyAbs, tolerance]

/-- Iteration 17 of the bisection of `C2_counterexample`. -/
lemma c2_step_16 :
    ivLoop bsStep 1 84 ((65535243 : ℚ)/65536000) ((655402429 : ℚ)/655360000) = ivLoop bsStep 1 83 ((65535243 : ℚ)/65536000) ((1310754859 : ℚ)/1310720000) := by
  rw [show (84 : ℕ) = 83 + 1 from rfl]
  rw [ivLoop]
  norm_num [bsStep, pyAbs, tolerance]

/-- Iteration 18 of the bisection of `C2_counterexample`. -/
lemma c2_step_17 :
    ivLoop bsStep 1 83 ((65535243 : ℚ)/65536000) ((1310754859 : ℚ)/1310720000) = ivLoop bsStep 1 82 ((65535243 : ℚ)/65536000) ((2621459719 : ℚ)/2621440000) := by
  rw [show (83 : ℕ) = 82 + 1 from rfl]
  rw [ivLoop]
  norm_num [bsStep, pyAbs, tolerance]

/-- Iteration 19 of the bisection of `C2_counterexample`. -/
lemma c2_step_18 :
    ivLoop bsStep 1 82 ((65535243 : ℚ)/65536000) ((2621459719 : ℚ)/2621440000) = ivLoop bsStep 1 81 ((5242869439 : ℚ)/5242880000) ((2621459719 : ℚ)/2621440000) := by
  rw [show (82 : ℕ) = 81 + 1 from rfl]
  rw [ivLoop]
  norm_num [bsStep, pyAbs, tolerance]

/-- Iteration 20 of the bisection of `C2_counterexample`. -/
lemma c2_step_19 :
    ivLoop bsStep 1 81 ((5242869439 : ℚ)/5242880000) ((2621459719 : ℚ)/2621440000) = ivLoop bsStep 1 80 ((5242869439 : ℚ)/5242880000) ((10485788877 : ℚ)/10485760000) := by
  rw [show (81 : ℕ) = 80 + 1 from rfl]
  rw [ivLoop]
  norm_num [bsStep, pyAbs, tolerance]

/-- Iteration 21 of the bisection of `C2_counterexample`. -/
lemma c2_step_20 :
    ivLoop bsStep 1 80 ((5242869439 : ℚ)/5242880000) ((10485788877 : ℚ)/10485760000) = ivLoop bsStep 1 79 ((5242869439 : ℚ)/5242880000) ((4194305551 : ℚ)/4194304000) := by
  rw [show (80 : ℕ) = 79 + 1 from rfl]
  rw [ivLoop]
  norm_num [bsStep, pyAbs, tolerance]

/-- Iteration 22 of the bisection of `C2_counterexample`. -/
lemma c2_step_21 :
    ivLoop bsStep 1 79 ((5242869439 : ℚ)/5242880000) ((4194305551 : ℚ)/4194304000) = ivLoop bsStep 1 78 ((41943005511 : ℚ)/41943040000) ((4194305551 : ℚ)/4194304000) := by
  rw [show (79 : ℕ) = 78 + 1 from rfl]
  rw [ivLoop]
  norm_num [bsStep, pyAbs, tolerance]

/-- Iteration 23 of the bisection of `C2_counterexample`. -/
lemma c2_step_22 :
    ivLoop bsStep 1 78 ((41943005511 : ℚ)/41943040000) ((4194305551 : ℚ)/4194304000) = ivLoop bsStep 1 77 ((83886061021 : ℚ)/83886080000) ((4194305551 : ℚ)/4194304000) := by
  rw [show (78 : ℕ) = 77 + 1 from rfl]
  rw [ivLoop]
  norm_num [bsStep, pyAbs, tolerance]

/-- Iteration 24 of the bisection of `C2_counterexample`. -/
lemma c2_step_23 :
    ivLoop bsStep 1 77 ((83886061021 : ℚ)/83886080000) ((4194305551 : ℚ)/4194304000) = ivLoop bsStep 1 76 ((83886061021 : ℚ)/83886080000) ((167772172041 : ℚ)/167772160000) := by
  rw [show (77 : ℕ) = 76 + 1 from rfl]
  rw [ivLoop]
  norm_num [bsStep, pyAbs, tolerance]

/-- Iteration 25 of the bisection of `C2_counterexample`. -/
lemma c2_step_24 :
    ivLoop bsStep 1 76 ((83886061021 : ℚ)/83886080000) ((167772172041 : ℚ)/167772160000) = ivLoop bsStep 1 75 ((335544294083 : ℚ)/335544320000) ((167772172041 : ℚ)/167772160000) := by
  rw [show (76 : ℕ) = 75 + 1 from rfl]
  rw [ivLoop]
  norm_num [bsStep, pyAbs, tolerance]

/-- Iteration 26 of the bisection of `C2_counterexample`. -/
lemma c2_step_25 :
    ivLoop bsStep 1 75 ((335544294083 : ℚ)/335544320000) ((167772172041 : ℚ)/167772160000) = some ((1342177326329 : ℚ)/1342177280000) := by
  rw [show (75 : ℕ) = 74 + 1 from rfl]
  rw [ivLoop]
  norm_num [bsStep, pyAbs, tolerance]

/-- C2 counterexample: against the step pricing function `bsStep`, market
price 1 lies strictly between the boundary prices, so the bisection runs; no
probed price can ever meet the tolerance (every price is `0.0002` or `4`), and
after 26 iterations the bracket width falls below `1e-7` and `calculate_iv`
returns the final bracket midpoint — whose own price `4` misses the market
price by `3`, far beyond the tolerance — instead of failing. -/
theorem C2_counterexample :
    calculate_iv bsStep 1 1 1 1 0 = some ((1342177326329 : ℚ)/1342177280000)
    ∧ bsStep ((1342177326329 : ℚ)/1342177280000) = some 4
    ∧ tolerance ≤ |(4 : ℚ) - 1| := by
  refine ⟨?_, ?_, ?_⟩
  · have h0 : calculate_iv bsStep 1 1 1 1 0 = ivLoop bsStep 1 100 ((1 : ℚ)/10000) (5 : ℚ) := by
      unfold calculate_iv
      norm_num [bsStep, sigmaLow, sigmaHigh]
    rw [h0, c2_step_0, c2_step_1, c2_step_2, c2_step_3, c2_step_4, c2_step_5, c2_step_6,
      c2_step_7, c2_step_8, c2_step_9, c2_step_10, c2_step_11, c2_step_12, c2_step_13,
      c2_step_14, c2_step_15, c2_step_16, c2_step_17, c2_step_18, c2_step_19, c2_step_20,
      c2_step_21, c2_step_22, c2_step_23, c2_step_24, c2_step_25]
  · norm_num [bsStep]
  · rw [show ((4 : ℚ) - 1) = 3 by norm_num, abs_of_nonneg (by norm_num : (0 : ℚ) ≤ 3)]
    norm_num [tolerance]

end IVCalculator

namespace RVCalculator

/-- Zipping `k+1` copies of `a` with `k` copies gives `k` pairs. -/
lemma zip_replicate_succ {α : Type _} (k : ℕ) (a : α) :
    (List.replicate (k + 1) a).zip (List.replicate k a) = List.replicate k (a, a) := by
  induction k with
  | zero => rfl
  | succ k ih =>
    rw [List.replicate_succ a (k + 1)]
    nth_rewrite 2 [List.replicate_succ a k]
    rw [List.zip_cons_cons, ih, ← List.replicate_succ]

/-- The mean of a constant-zero list is 0. -/
lemma mean_replicate_zero (k : ℕ) : mean (List.replicate k (0 : ℚ)) = 0 := by
  unfold mean
  rw [List.sum_replicate, smul_zero, zero_div]

/-- The population standard deviation of a constant-zero list is 0 whenever
the square-root model sends 0 to 0. -/
lemma popStd_replicate_zero (sqrtQ : ℚ → ℚ) (hs : sqrtQ 0 = 0) (k : ℕ) :
    popStd sqrtQ (List.replicate k (0 : ℚ)) = 0 := by
  unfold popStd
  simp only [mean_replicate_zero, sub_zero, List.map_replicate]
  norm_num
  rw [mean_replicate_zero, hs]

/-- The sample standard deviation of a constant-zero list is 0 whenever the
square-root model sends 0 to 0. -/
lemma sampleStd_replicate_zero (sqrtQ : ℚ → ℚ) (hs : sqrtQ 0 = 0) (k : ℕ) :
    sampleStd sqrtQ (List.replicate k (0 : ℚ)) = 0 := by
  unfold sampleStd
  simp only [mean_replicate_zero, sub_zero, List.map_replicate]
  norm_num
  exact hs

/-- On a flat series of `m + 3` equal positive prices, `calculate_returns`
succeeds with `m + 2` zero returns: every log return is `log 1 = 0`, nothing
is filtered, and no validity check fires. -/
lemma calculate_returns_flat (logQ sqrtQ : ℚ → ℚ) (p : ℚ) (m : ℕ)
    (hlog : logQ 1 = 0) (hsqrt : sqrtQ 0 = 0) (hp : 0 < p) :
    calculate_returns logQ sqrtQ (List.replicate (m + 3) p)
      = some (List.replicate (m + 2) (0 : ℚ)) := by
  unfold calculate_returns
  rw [if_neg (by rw [List.length_replicate]; omega)]
  simp only [List.tail_replicate, show m + 3 - 1 = m + 2 from rfl,
    show m + 3 = (m + 2) + 1 from rfl, zip_replicate_succ, List.map_replicate,
    div_self (ne_of_gt hp), hlog, List.length_replicate]
  have hlen : ¬(((m + 2 : ℕ) : ℚ) < ((m + 2 : ℕ) : ℚ) * (8 / 10)) := by
    have h0 : (0 : ℚ) ≤ ((m + 2 : ℕ) : ℚ) := Nat.cast_nonneg _
    nlinarith
  rw [if_neg hlen]
  simp only [mean_replicate_zero, popStd_replicate_zero sqrtQ hsqrt]
  rw [List.filter_replicate_of_pos (by norm_num [pyAbs])]
  rw [if_neg (by rw [List.length_replicate]; exact hlen)]

/-- C5 (amended): for every price series of three or more equal positive
prices, the realized-volatility computation returns failure (`None`), not
volatility 0: the zero sample standard deviation of the all-zero log returns
is rejected by the `period_vol <= 0` check at `rv_calculator.py` line 205.
`logQ`/`sqrtQ` range over any modelling of `np.log`/`np.sqrt` exact at the
only points evaluated in this run (`log 1 = 0`, `sqrt 0 = 0`). -/
theorem C5_flat_series_returns_none (logQ sqrtQ : ℚ → ℚ) (p t : ℚ) (m : ℕ)
    (hlog : logQ 1 = 0) (hsqrt : sqrtQ 0 = 0) (hp : 0 < p) :
    calculate_realized_volatility logQ sqrtQ (List.replicate (m + 3) p) t = none := by
  unfold calculate_realized_volatility
  rw [calculate_returns_flat logQ sqrtQ p m hlog hsqrt hp]
  simp only [sampleStd_replicate_zero sqrtQ hsqrt]
  rw [if_pos le_rfl]

/-- Witness for C5 (amended): the flat series of three prices 100. -/
theorem C5_flat_series_returns_none_witness :
    calculate_realized_volatility (fun _ => (0 : ℚ)) (fun _ => (0 : ℚ))
      (List.replicate 3 100) 15 = none :=
  C5_flat_series_returns_none (fun _ => 0) (fun _ => 0) 100 15 0 rfl rfl (by norm_num)

/-- C5 counterexample: on the flat positive series `[100, 100, 100]` the
computation returns `None` (a failure), not the result `some 0` the claim
requires.  The log/sqrt models are the constant-zero functions, which agree
with `np.log`/`np.sqrt` at the only points this run evaluates (`np.log 1 = 0`,
`np.sqrt 0 = 0`). -/
theorem C5_counterexample :
    calculate_realized_volatility (fun _ => (0 : ℚ)) (fun _ => (0 : ℚ))
      [100, 100, 100] 15 = none
    ∧ (none : Option ℚ) ≠ some 0 := by
  refine ⟨by with_unfolding_all decide, by simp⟩

end RVCalculator

namespace IVCalculator

set_option maxRecDepth 40000 in
/-- C8 (amended): `"QQQ 241101P00498000"` parses (in both the iv-calculator
and the auto-hedger parser) to underlying QQQ, expiry 20241101, right P,
strike 498; variable internal whitespace is tolerated; a missing detail token,
an empty string, a right character other than C/P, a short detail, a
non-numeric strike and a third token are each rejected with no parse — but
the expiry digits are not validated: a malformed date field is accepted and
reproduced inside the expiry. -/
theorem C8_parse_round_trip_and_rejections :
    parse_option_symbol "QQQ 241101P00498000" = some ⟨"QQQ", "20241101", 'P', 498⟩
    ∧ parse_option_symbol "QQQ   241101P00498000" = some ⟨"QQQ", "20241101", 'P', 498⟩
    ∧ AutoHedger.parse_option_symbol "QQQ 241101P00498000"
        = some ⟨"QQQ", "20241101", 498, 'P', "SMART", "USD", 100⟩
    ∧ parse_option_symbol "QQQ" = none
    ∧ parse_option_symbol "" = none
    ∧ parse_option_symbol "QQQ 241101X00498000" = none
    ∧ parse_option_symbol "QQQ 241101P0049800" = none
    ∧ parse_option_symbol "QQQ 241101Pabcdefgh" = none
    ∧ parse_option_symbol "QQQ 241101P00498000 EXTRA" = none
    ∧ parse_option_symbol "QQQ AAAAAAP00498000" = some ⟨"QQQ", "20AAAAAA", 'P', 498⟩ := by
  refine ⟨?_, ?_, ?_, ?_, ?_, ?_, ?_, ?_, ?_, ?_⟩ <;> with_unfolding_all decide

set_option maxRecDepth 40000 in
/-- C8 counterexample: the malformed key `"QQQ AAAAAAP00498000"` — its date
field `AAAAAA` is not made of digits — is parsed successfully, producing the
wrong expiry `"20AAAAAA"`, instead of being rejected with an error. -/
theorem C8_counterexample :
    parse_option_symbol "QQQ AAAAAAP00498000" = some ⟨"QQQ", "20AAAAAA", 'P', 498⟩
    ∧ ("AAAAAA".toList.all Char.isDigit) = false := by
  refine ⟨by with_unfolding_all decide, by with_unfolding_all decide⟩

end IVCalculator
